import Mathlib

/-!
Shallow embedding of the NFL_Data ingestion pipeline (database.py, players.py,
pipeline.py, teams.py, scraping.py) for verifying its specification.

Cell values of a columnar frame: SQL/polars scalars, with an explicit null.
-/

inductive Val where
  | null : Val
  | int : Int → Val
  | str : String → Val
deriving DecidableEq, Repr

/-- Row of a keyed destination table: the key column value (the `id_field`,
`game_id`, or other key column) plus the remaining column values in order. -/
structure Row where
  key : Int
  vals : List Val
deriving DecidableEq, Repr

/-- Columnar frame: a polars DataFrame as an ordered column-name list plus
rows of values aligned positionally with the columns. -/
structure DF where
  cols : List String
  rows : List (List Val)
deriving DecidableEq, Repr

/-- The frame `pl.DataFrame()` with no columns and no rows. -/
def emptyDF : DF := ⟨[], []⟩

/-- Embeds the SQL statement `DELETE FROM table WHERE id_field IN (SELECT
id_field FROM temp_df)` of database.py `write_to_db` (and the `game_id`
variant in `write_to_game_db`): keeps exactly the rows whose key does not
occur among the incoming frame's keys. -/
def deleteByKeys (rows df : List Row) : List Row :=
  rows.filter (fun r => !(df.any (fun d => d.key == r.key)))

/-- database.py `write_to_db` / `write_to_game_db`: if the destination table
does not exist (`none`) it is created from the incoming frame; otherwise the
rows whose key appears in the incoming frame are deleted and then every
incoming row is inserted (appended). -/
def write_to_db : Option (List Row) → List Row → List Row
  | none, df => df
  | some rows, df => deleteByKeys rows df ++ df

/-- The observable committed states of the destination during the update
branch of `write_to_db`: database.py issues the DELETE and the INSERT as two
separate `conn.execute` statements with no enclosing BEGIN, so each
autocommits and the state after the DELETE alone is durable if the
connection is lost before the INSERT. Index 0: pre-call state; index 1:
after the DELETE; index 2: after the INSERT. -/
def write_to_db_states (dest df : List Row) : List (List Row) :=
  [dest, deleteByKeys dest df, deleteByKeys dest df ++ df]

/-- database.py `insert_into_db`: if the destination does not exist it is
created from the incoming frame; otherwise only incoming rows whose key
(`game_id`) is absent from the destination are inserted (`INSERT ... SELECT *
FROM temp_df WHERE game_id NOT IN (SELECT game_id FROM table)`). -/
def insert_into_db : Option (List Row) → List Row → List Row
  | none, df => df
  | some rows, df => rows ++ df.filter (fun d => !(rows.any (fun r => r.key == d.key)))

/-- pipeline.py `get_prop_odds` update branch: despite the comment
"Insert only new records using LEFT JOIN approach instead of NOT EXISTS",
the executed statement is `INSERT INTO nfl_prop_odds SELECT n.* FROM
new_odds n` with no join and no filter, so every incoming row is inserted
unconditionally. -/
def get_prop_odds_insert : Option (List Row) → List Row → List Row
  | none, df => df
  | some rows, df => rows ++ df

/-- polars `pl.concat` with the default `how` of `vertical`, as called in
players.py (`pl.concat(rushing_data)`, `pl.concat(valid_dataframes)`):
succeeds only when every frame has the same column list, stacking the rows;
a column-set mismatch raises (modelled as `none`); `pl.concat` of an empty
list also raises. No column unioning or null padding is performed. -/
def concatVertical : List DF → Option DF
  | [] => none
  | d :: ds =>
    if ds.all (fun x => x.cols == d.cols) then
      some ⟨d.cols, (d :: ds).flatMap (fun x => x.rows)⟩
    else none

/-- Remote gamelog payload shape consumed by players.py: `data['names']`
(absent models a KeyError) and the event list, each event carrying its
`eventId` and its `stats` list aligned with the names. -/
structure GamelogPayload where
  names : Option (List String)
  events : List (String × List Val)
deriving DecidableEq, Repr

/-- Outcome of the synchronous players.py `get_player_gamelog`: a built
frame, a caught parse error (the function prints and returns None), or
process termination — the code runs `exit()` when the payload has no
events. -/
inductive GamelogOutcome where
  | frame : DF → GamelogOutcome
  | parseErrorNone : GamelogOutcome
  | procTerminated : GamelogOutcome
deriving DecidableEq, Repr

/-- players.py `get_player_gamelog` (synchronous, lines 225-258): reads
`data['names']` (KeyError is caught, printing and returning None), then
navigates to the events; when the event list is empty it prints
"No events found" and calls `exit()`, terminating the process; otherwise it
builds one row per event from `dict(zip(stat_names, boxscore['stats']))`
plus the `gameId` and `playerId` columns. -/
def get_player_gamelog (player_id : String) (p : GamelogPayload) : GamelogOutcome :=
  match p.names with
  | none => .parseErrorNone
  | some stat_names =>
    if p.events.isEmpty then .procTerminated
    else .frame ⟨stat_names ++ ["gameId", "playerId"],
      p.events.map (fun ev =>
        (stat_names.zip ev.2).map (fun z => z.2) ++ [.str ev.1, .str player_id])⟩

/-- What a single async gamelog fetch encounters: an aiohttp client error, a
non-ClientError exception (e.g. a timeout) that escapes the coroutine, or a
parsed JSON payload. -/
inductive FetchResponse where
  | clientError : FetchResponse
  | otherExn : Nat → FetchResponse
  | payload : GamelogPayload → FetchResponse
deriving DecidableEq, Repr

/-- Result of one task as seen by `asyncio.gather(..., return_exceptions=True)`:
either the coroutine's returned frame or the exception it raised, captured
rather than propagated. -/
inductive AsyncFetchRes where
  | ok : DF → AsyncFetchRes
  | exn : Nat → AsyncFetchRes
deriving DecidableEq, Repr

/-- players.py `get_player_gamelog_async`: KeyError/IndexError while parsing
and `aiohttp.ClientError` are caught and yield an empty frame; an empty
event list yields an empty frame; any other exception escapes the coroutine
(to be captured by the gather); otherwise it builds one row per event with
the `gameId`, `playerId` and `playerName` columns appended. -/
def get_player_gamelog_async (player_id player_name : String) :
    FetchResponse → AsyncFetchRes
  | .clientError => .ok emptyDF
  | .otherExn n => .exn n
  | .payload p =>
    match p.names with
    | none => .ok emptyDF
    | some stat_names =>
      if p.events.isEmpty then .ok emptyDF
      else .ok ⟨stat_names ++ ["gameId", "playerId", "playerName"],
        p.events.map (fun ev =>
          (stat_names.zip ev.2).map (fun z => z.2) ++
            [.str ev.1, .str player_id, .str player_name])⟩

/-- One batch entry of players.py `get_multiple_player_gamelogs_async`:
the (player_id, player_name) pair together with what its fetch encounters. -/
abbrev PInput : Type := String × String × FetchResponse

/-- The `asyncio.gather(*tasks, return_exceptions=True)` step of
`get_multiple_player_gamelogs_async`: one captured result per input entity,
in input order. -/
def gatherGamelogs (inputs : List PInput) : List AsyncFetchRes :=
  inputs.map (fun t => get_player_gamelog_async t.1 t.2.1 t.2.2)

/-- Instrumented variant of `gatherGamelogs` that also counts how many times
the per-entity fetch is invoked. -/
def gatherGamelogsCount : List PInput → List AsyncFetchRes × Nat
  | [] => ([], 0)
  | t :: rest =>
    let p := gatherGamelogsCount rest
    (get_player_gamelog_async t.1 t.2.1 t.2.2 :: p.1, p.2 + 1)

/-- The result-combination loop of `get_multiple_player_gamelogs_async`
(players.py lines 332-341): exceptions captured by the gather are logged and
skipped, empty frames are skipped, frames of width exactly 19 are printed
and skipped, and every other frame is kept. -/
def validFrames (results : List AsyncFetchRes) : List DF :=
  results.filterMap (fun r =>
    match r with
    | .exn _ => none
    | .ok df =>
      if df.rows.isEmpty then none
      else if df.cols.length == 19 then none
      else some df)

/-- The tail of `get_multiple_player_gamelogs_async`: concatenate the kept
frames with `pl.concat` when there are any, otherwise return
`pl.DataFrame()`. -/
def combineGamelogs (results : List AsyncFetchRes) : Option DF :=
  if (validFrames results).isEmpty then some emptyDF
  else concatVertical (validFrames results)

/-- players.py `get_multiple_player_gamelogs_async`: returns `pl.DataFrame()`
immediately on an empty input list; otherwise gathers one captured result
per entity under the semaphore and combines the kept frames. `none` models
the call raising (the `pl.concat` failing on mismatched schemas). -/
def get_multiple_player_gamelogs_async (inputs : List PInput) : Option DF :=
  if inputs.isEmpty then some emptyDF
  else combineGamelogs (gatherGamelogs inputs)

/-- Whether a single async fetch fails (raises, is a client error, or yields
a malformed or empty payload) rather than producing gamelog rows. -/
def fetchFails : FetchResponse → Bool
  | .clientError => true
  | .otherExn _ => true
  | .payload p => p.names.isNone || p.events.isEmpty

/-- State of the `asyncio.Semaphore(max_concurrent)` discipline used by
`fetch_with_semaphore` in players.py: the number of free slots and the
number of fetches currently in flight (the body of `async with semaphore`).
-/
structure SemState where
  available : Nat
  running : Nat
deriving DecidableEq, Repr

/-- Initial semaphore state: `asyncio.Semaphore(maxC)` with no fetch yet in
flight. -/
def initSem (maxC : Nat) : SemState := ⟨maxC, 0⟩

/-- Atomic transitions of the semaphore discipline: entering
`async with semaphore` consumes a free slot and starts a fetch; leaving it
(on success, empty result, or exception — `async with` releases in every
case) returns the slot. -/
inductive SemStep : SemState → SemState → Prop where
  | acquire (a r : Nat) : SemStep ⟨a + 1, r⟩ ⟨a, r + 1⟩
  | release (a r : Nat) : SemStep ⟨a, r + 1⟩ ⟨a + 1, r⟩

/-- States the semaphore protocol can reach from `initSem maxC` by any
interleaving of acquires and releases. -/
def SemReachable (maxC : Nat) (s : SemState) : Prop :=
  Relation.ReflTransGen SemStep (initSem maxC) s

/-- scraping.py `ScrapingResult` restricted to the fields
`sumer_advanced_stats` consumes: the success flag and the scraped table. -/
structure ScrapingResult where
  success : Bool
  df : DF
deriving DecidableEq, Repr

/-- teams.py `sumer_advanced_stats` (lines 296-360), modelled at the level
the claim concerns: the frames of the successful scrape results are
collected in order, then the code indexes `dataframes[0]` (treated as the
defensive table) and `dataframes[1]` (treated as the offensive table) with
no length guard, raising IndexError when fewer than two scrapes succeeded.
The per-frame rank-column derivation and renaming applied to each selected
frame are elided: they do not affect which frame is selected or whether the
indexing raises. -/
def sumer_advanced_stats (results : List ScrapingResult) :
    Except String (DF × DF) :=
  match (results.filter (fun r => r.success)).map (fun r => r.df) with
  | d0 :: d1 :: _ => .ok (d0, d1)
  | _ => .error "IndexError: list index out of range"

theorem deleteByKeys_append (xs ys df : List Row) :
    deleteByKeys (xs ++ ys) df = deleteByKeys xs df ++ deleteByKeys ys df := by
  simp [deleteByKeys, List.filter_append]

theorem deleteByKeys_self (df : List Row) : deleteByKeys df df = [] := by
  rw [deleteByKeys, List.filter_eq_nil_iff]
  intro r hr
  simp [List.any_eq_true]
  exact ⟨r, hr, rfl⟩

theorem deleteByKeys_idem (rows df : List Row) :
    deleteByKeys (deleteByKeys rows df) df = deleteByKeys rows df := by
  simp [deleteByKeys, List.filter_filter]

/-- C2: a Replace-mode upsert on an existing destination keeps exactly the
existing rows whose key is absent from the incoming table and inserts every
incoming row; on the concrete scenario with destination keys 1, 2, 3 and
incoming keys 2, 3, 4 the result holds keys 1, 2, 3, 4 with rows 2 and 3
carrying the incoming values, row 1 unchanged and row 4 newly inserted. -/
theorem write_to_db_replace_semantics :
    (∀ (dest df : List Row) (r : Row),
      r ∈ write_to_db (some dest) df ↔
        r ∈ df ∨ (r ∈ dest ∧ ∀ d ∈ df, d.key ≠ r.key))
    ∧ write_to_db
        (some [⟨1, [Val.int 10]⟩, ⟨2, [Val.int 20]⟩, ⟨3, [Val.int 30]⟩])
        [⟨2, [Val.int 200]⟩, ⟨3, [Val.int 300]⟩, ⟨4, [Val.int 400]⟩]
      = [⟨1, [Val.int 10]⟩, ⟨2, [Val.int 200]⟩, ⟨3, [Val.int 300]⟩,
         ⟨4, [Val.int 400]⟩] := by
  constructor
  · intro dest df r
    simp [write_to_db, deleteByKeys, List.mem_filter, List.any_eq_true]
    tauto
  · decide

/-- C9: the Replace-mode upsert is idempotent; re-running `write_to_db` with
the same incoming table leaves the destination state produced by the first
run unchanged, row for row. -/
theorem write_to_db_replace_idempotent (dest : Option (List Row)) (df : List Row) :
    write_to_db (some (write_to_db dest df)) df = write_to_db dest df := by
  cases dest with
  | none => simp [write_to_db, deleteByKeys_self]
  | some rows =>
    simp [write_to_db, deleteByKeys_append, deleteByKeys_self, deleteByKeys_idem]

/-- C1: the `get_prop_odds` update branch inserts every incoming row with no
key filter, so a second run with the same single-row table doubles the row
count to 2, while the `insert_into_db` path with its `NOT IN` filter keeps
the count at 1 as the claim requires. -/
theorem get_prop_odds_insert_duplicates :
    (get_prop_odds_insert
        (some (get_prop_odds_insert none [⟨1, [Val.str "FanDuel"]⟩]))
        [⟨1, [Val.str "FanDuel"]⟩]).length = 2
    ∧ (insert_into_db
        (some (insert_into_db none [⟨1, [Val.str "FanDuel"]⟩]))
        [⟨1, [Val.str "FanDuel"]⟩]).length = 1 := by decide

/-- C3: the DELETE and the INSERT of the Replace-mode upsert autocommit
separately (no enclosing transaction in database.py), so for destination
key 1 and an incoming row with the same key the observable state after the
DELETE alone is the empty table — neither the pre-call state nor the
post-call state — and a connection lost at that point leaves the deleted
key permanently missing. -/
theorem write_to_db_crash_loses_rows :
    (write_to_db_states [⟨1, [Val.int 10]⟩] [⟨1, [Val.int 11]⟩])[1]? = some []
    ∧ ([] : List Row) ≠ [⟨1, [Val.int 10]⟩]
    ∧ write_to_db (some [⟨1, [Val.int 10]⟩]) [⟨1, [Val.int 11]⟩] ≠ [] := by decide

theorem gatherGamelogsCount_eq (inputs : List PInput) :
    gatherGamelogsCount inputs = (gatherGamelogs inputs, inputs.length) := by
  induction inputs with
  | nil => rfl
  | cons t rest ih => simp [gatherGamelogsCount, gatherGamelogs, ih]

/-- C4: the gather step of the batch gamelog fetch produces exactly one
captured outcome per input entity, in input order, invoking the per-entity
fetch exactly once per entity — so the outcome count equals the entity
count for every fetch behaviour, and the empty entity list yields an empty
outcome list with zero invocations and an empty returned frame. -/
theorem gather_outcome_per_entity (inputs : List PInput) :
    (gatherGamelogsCount inputs).1.length = inputs.length
    ∧ (gatherGamelogsCount inputs).2 = inputs.length
    ∧ (∀ i : Nat, (gatherGamelogsCount inputs).1[i]? =
        inputs[i]?.map (fun t => get_player_gamelog_async t.1 t.2.1 t.2.2))
    ∧ gatherGamelogsCount ([] : List PInput) = ([], 0)
    ∧ get_multiple_player_gamelogs_async [] = some emptyDF := by
  refine ⟨?_, ?_, ?_, rfl, rfl⟩
  · rw [gatherGamelogsCount_eq]
    simp [gatherGamelogs]
  · rw [gatherGamelogsCount_eq]
  · intro i
    rw [gatherGamelogsCount_eq]
    simp [gatherGamelogs, List.getElem?_map]

theorem semStep_sum (s t : SemState) (h : SemStep s t) :
    s.available + s.running = t.available + t.running := by
  cases h with
  | acquire a r => show a + 1 + r = a + (r + 1); omega
  | release a r => show a + (r + 1) = a + 1 + r; omega

/-- C8: in every state the semaphore discipline of the async fetchers can
reach, the number of in-flight fetches never exceeds the configured
maximum concurrency. -/
theorem semaphore_ceiling (maxC : Nat) (s : SemState)
    (h : SemReachable maxC s) : s.running ≤ maxC := by
  have hsum : s.available + s.running = maxC := by
    induction h with
    | refl => rfl
    | tail hab hbc ih =>
      have := semStep_sum _ _ hbc
      omega
  omega

/-- Witness for C8: with maximum concurrency 2, the state with one fetch in
flight is reachable by a single acquire and respects the ceiling. -/
theorem semaphore_ceiling_witness : (SemState.mk 1 1).running ≤ 2 :=
  semaphore_ceiling 2 ⟨1, 1⟩ (Relation.ReflTransGen.single (SemStep.acquire 1 0))

theorem concatVertical_same_cols (c : List String) (dfs : List DF)
    (h : ∀ d ∈ dfs, d.cols = c) (hne : dfs ≠ []) :
    concatVertical dfs = some ⟨c, dfs.flatMap (fun d => d.rows)⟩ := by
  cases dfs with
  | nil => exact absurd rfl hne
  | cons d ds =>
    have hd : d.cols = c := h d (List.mem_cons_self d ds)
    have hall : ds.all (fun x => x.cols == d.cols) = true := by
      rw [List.all_eq_true]
      intro x hx
      have hx' := h x (List.mem_cons_of_mem d hx)
      simp [hx', hd]
    simp [concatVertical, hall, hd]
    intro x hx
    exact h x (List.mem_cons_of_mem d hx)

/-- C6 (corrected claim, counterexample): for records with field sets
differing as in the claim's scenario, the aggregation concat used in
players.py fails (polars vertical concat raises on mismatched schemas)
instead of producing the union-of-columns, null-padded table the claim
asserts. -/
theorem concat_mismatched_schemas_fails :
    concatVertical [⟨["a"], [[Val.int 1]]⟩, ⟨["a", "b"], [[Val.int 2, Val.int 3]]⟩]
      = none
    ∧ concatVertical [⟨["a"], [[Val.int 1]]⟩, ⟨["a", "b"], [[Val.int 2, Val.int 3]]⟩]
      ≠ some ⟨["a", "b"], [[Val.int 1, Val.null], [Val.int 2, Val.int 3]]⟩ := by
  decide

/-- C6 (amended): the aggregator only combines records whose column lists
are identical; for every nonempty batch of same-schema frames the concat
produces a single table over that shared column list with every record's
rows stacked in order, while any mismatch in field sets makes the concat
fail rather than union or pad. -/
theorem concat_same_schema_stacks (c : List String) (dfs : List DF)
    (h : ∀ d ∈ dfs, d.cols = c) (hne : dfs ≠ []) :
    concatVertical dfs = some ⟨c, dfs.flatMap (fun d => d.rows)⟩ :=
  concatVertical_same_cols c dfs h hne

/-- Witness for the amended C6: two single-row records sharing the column
list a are stacked into one two-row table. -/
theorem concat_same_schema_stacks_witness :
    concatVertical [⟨["a"], [[Val.int 1]]⟩, ⟨["a"], [[Val.int 2]]⟩]
      = some ⟨["a"], [[Val.int 1], [Val.int 2]]⟩ := by
  have h := concat_same_schema_stacks ["a"]
    [⟨["a"], [[Val.int 1]]⟩, ⟨["a"], [[Val.int 2]]⟩] (by decide) (by decide)
  rw [h]
  decide

/-- C7 (corrected claim, counterexample): a successfully fetched, non-empty
frame whose width is exactly 19 is dropped by the combination loop of
`get_multiple_player_gamelogs_async` (printed, not kept, not reported as a
failure), so the batch output is the empty frame even though the record's
rows are non-empty. -/
theorem combine_drops_width19_frame :
    combineGamelogs [AsyncFetchRes.ok ⟨(List.range 19).map (fun i => toString i),
        [List.replicate 19 (Val.int 7)]⟩] = some emptyDF
    ∧ ([List.replicate 19 (Val.int 7)] : List (List Val)) ≠ [] := by
  decide

/-- C7 (amended): the batch output keeps exactly the captured frames that
are non-exception, non-empty and not 19 columns wide; whenever those kept
frames all share one column list, every one of their rows appears in the
combined output in order — but a 19-wide frame is dropped and a schema
mismatch among kept frames makes the concat fail instead of falling back to
per-column unioning. -/
theorem combine_keeps_valid_rows (results : List AsyncFetchRes) (c : List String)
    (hc : ∀ d ∈ validFrames results, d.cols = c)
    (hne : validFrames results ≠ []) :
    combineGamelogs results
      = some ⟨c, (validFrames results).flatMap (fun d => d.rows)⟩ := by
  have hE : (validFrames results).isEmpty = false := by
    cases h' : validFrames results with
    | nil => exact absurd h' hne
    | cons a t => rfl
  unfold combineGamelogs
  rw [hE]
  simp only [Bool.false_eq_true, if_false]
  exact concatVertical_same_cols c _ hc hne

/-- Witness for the amended C7: one kept frame among an exception and an
empty frame; its row appears in the combined output. -/
theorem combine_keeps_valid_rows_witness :
    combineGamelogs [AsyncFetchRes.exn 0, AsyncFetchRes.ok emptyDF,
        AsyncFetchRes.ok ⟨["a"], [[Val.int 1]]⟩]
      = some ⟨["a"], [[Val.int 1]]⟩ := by
  have h := combine_keeps_valid_rows [AsyncFetchRes.exn 0, AsyncFetchRes.ok emptyDF,
      AsyncFetchRes.ok ⟨["a"], [[Val.int 1]]⟩] ["a"] (by decide) (by decide)
  rw [h]
  decide

/-- C5 (corrected claim, counterexample): the synchronous
`get_player_gamelog` terminates the whole process via `exit()` when the
fetched payload parses but contains no events, rather than recovering the
empty payload as a per-entity outcome. -/
theorem get_player_gamelog_empty_terminates :
    get_player_gamelog "3139477" ⟨some ["passingYards"], []⟩
      = GamelogOutcome.procTerminated := by
  decide

theorem validFrames_of_fails (inputs : List PInput)
    (h : ∀ t ∈ inputs, fetchFails t.2.2 = true) :
    validFrames (gatherGamelogs inputs) = [] := by
  rw [validFrames, gatherGamelogs, List.filterMap_map, List.filterMap_eq_nil_iff]
  intro t ht
  have hf := h t ht
  rcases t with ⟨pid, pname, resp⟩
  cases resp with
  | clientError => rfl
  | otherExn n => rfl
  | payload p =>
    cases hn : p.names with
    | none => simp [Function.comp, get_player_gamelog_async, hn, emptyDF]
    | some ns =>
      have hev : p.events.isEmpty = true := by
        simpa [fetchFails, hn] using hf
      simp [Function.comp, get_player_gamelog_async, hn, hev, emptyDF]

/-- C5 (amended): in the async batch path every individual fetch failure —
client error, escaped exception, malformed payload, or empty payload — is
recovered locally (caught in the coroutine or captured by the gather), and
even when 100 percent of the fetches fail the batch returns the empty frame
without raising; the synchronous `get_player_gamelog`, by contrast,
terminates the process on an empty payload. -/
theorem batch_all_failures_returns_empty (inputs : List PInput)
    (h : ∀ t ∈ inputs, fetchFails t.2.2 = true) :
    get_multiple_player_gamelogs_async inputs = some emptyDF := by
  cases hI : inputs.isEmpty with
  | true => simp [get_multiple_player_gamelogs_async, hI]
  | false =>
    simp [get_multiple_player_gamelogs_async, hI, combineGamelogs,
      validFrames_of_fails inputs h]

/-- Witness for the amended C5: a four-entity batch in which every fetch
fails a different way (client error, escaped exception, empty events,
missing names) returns the empty frame without raising. -/
theorem batch_all_failures_returns_empty_witness :
    get_multiple_player_gamelogs_async
      [("1", "A", FetchResponse.clientError),
       ("2", "B", FetchResponse.otherExn 0),
       ("3", "C", FetchResponse.payload ⟨some ["yds"], []⟩),
       ("4", "D", FetchResponse.payload ⟨none, [("401", [Val.int 5])]⟩)]
      = some emptyDF :=
  batch_all_failures_returns_empty _ (by decide)

/-- C10: `sumer_advanced_stats` raises an unguarded IndexError exactly when
fewer than two of the scraped pages succeed; its success path indexes the
successful-results list at positions 0 and 1, assuming the defensive table
first and the offensive table second. -/
theorem sumer_advanced_stats_index_error (results : List ScrapingResult) :
    sumer_advanced_stats results = .error "IndexError: list index out of range"
    ↔ results.countP (fun r => r.success) < 2 := by
  rw [List.countP_eq_length_filter]
  rw [show (results.filter (fun r => r.success)).length
      = ((results.filter (fun r => r.success)).map (fun r => r.df)).length from
      (List.length_map _ _).symm]
  unfold sumer_advanced_stats
  generalize (results.filter (fun r => r.success)).map (fun r => r.df) = l
  cases l with
  | nil => simp
  | cons a t =>
    cases t with
    | nil => simp
    | cons b u =>
      simp only [List.length_cons]
      constructor
      · intro hcontra
        exact absurd hcontra (by simp)
      · omega
